import Mathlib

/-!
Shallow embedding of the MoneyLending backend's loan-ledger core:
the `Transaction` mongoose model (src/src/models/Transaction.js) and the
transaction routes (create, list, get-by-id, update, delete, add-payment)
from the transactions router source file.

Modelling conventions:
* ObjectIds are `Nat`; dates and money amounts are `Int` (exact arithmetic,
  the code's `Number`/`Date` values compared with `<`, `<=`, `===`).
* Optional request-body fields are `Option`; express-validator's
  `.not().isEmpty()` / `.isNumeric()` checks become `Option`/emptiness tests.
* JavaScript truthiness in the PUT handler (`if (amount) ...`) is modelled
  exactly: a numeric patch value of `0` and a string patch value of `""`
  are falsy and leave the field untouched.
* A mongoose `save()` first runs validators (`amount` has `min: 1`,
  `interestRate` has `min: 0`, `borrower` is a required string), then the
  user `pre('save')` hook, which recomputes `totalPaid`, `remainingAmount`
  and `status` only when the `payments` path was modified; `timestamps`
  refreshes `updatedAt`.  Defaults on a new document do not mark paths
  modified, so a create-save runs with `paymentsModified = false`.
* The store is a `List Transaction`; a failed operation returns an
  `Except.error` carrying no store, so the state is unchanged by construction.
-/

/-- An account from the User model, reduced to the fields the
transaction routes read: `_id` and `username`. -/
structure Account where
  id : Nat
  username : String
deriving DecidableEq, Repr

/-- The `status` enum of the Transaction schema. -/
inductive Status
  | pending
  | active
  | completed
  | overdue
  | defaulted
deriving DecidableEq, Repr

/-- One entry of the `payments` array: `{ amount, date, notes }`. -/
structure Payment where
  amount : Int
  date : Int
  notes : Option String
deriving DecidableEq, Repr

/-- The Transaction document (loan record) of Transaction.js. -/
structure Transaction where
  id : Nat
  lender : Nat
  borrower : String
  borrowerId : Option Nat
  amount : Int
  interestRate : Int
  startDate : Int
  dueDate : Int
  status : Status
  description : Option String
  payments : List Payment
  totalPaid : Int
  remainingAmount : Int
  createdAt : Int
  updatedAt : Int
deriving DecidableEq, Repr

/-- Distinguishable failure conditions the routes report
(HTTP 400 validation, 404 not-found, 401 unauthorized; a mongoose
validation error surfacing as a 500 is also a rejected save and is
collapsed into `validationFailure`). -/
inductive ApiError
  | validationFailure
  | notFound
  | unauthorized
deriving DecidableEq, Repr

/-- The role tag attached to listed records. -/
inductive Role
  | lender
  | borrower
deriving DecidableEq, Repr

/-- `User.findOne({ username })`: first account with the given username. -/
def findUserByName (users : List Account) (name : String) : Option Account :=
  users.find? (fun u => u.username == name)

/-- `payments.reduce((sum, payment) => sum + payment.amount, 0)`. -/
def paymentsSum (ps : List Payment) : Int :=
  ps.foldl (fun s p => s + p.amount) 0

/-- Mongoose document validation: `amount` min 1, `interestRate` min 0,
`borrower` a required (non-empty) string.  The model's types make the other
required paths always present. -/
def validateDoc (t : Transaction) : Bool :=
  decide (1 ≤ t.amount) && decide (0 ≤ t.interestRate) && (t.borrower != "")

/-- The body of the `pre('save')` hook when `isModified('payments')` holds:
recompute `totalPaid`, `remainingAmount`, and the status transition. -/
def derivePayments (now : Int) (t : Transaction) : Transaction :=
  let totalPaid := paymentsSum t.payments
  let remainingAmount := t.amount - totalPaid
  let status :=
    if remainingAmount ≤ 0 then Status.completed
    else if decide (t.dueDate < now) && !(t.status == Status.completed) then Status.overdue
    else t.status
  { t with totalPaid := totalPaid, remainingAmount := remainingAmount, status := status }

/-- The `pre('save')` hook: derivation only runs when the `payments`
path was modified in this save. -/
def preSaveHook (now : Int) (paymentsModified : Bool) (t : Transaction) : Transaction :=
  if paymentsModified then derivePayments now t else t

/-- `document.save()`: validate, then run the pre-save hook; `timestamps`
sets `updatedAt`.  A validator failure rejects the save with nothing
persisted. -/
def saveDoc (now : Int) (paymentsModified : Bool) (t : Transaction) :
    Except ApiError Transaction :=
  if validateDoc t then
    Except.ok (preSaveHook now paymentsModified { t with updatedAt := now })
  else Except.error ApiError.validationFailure

/-- `Transaction.findById`. -/
def findById (store : List Transaction) (tid : Nat) : Option Transaction :=
  store.find? (fun t => t.id == tid)

/-- Write back a saved document: every stored record with the same id is
replaced, the rest are untouched. -/
def updateById (store : List Transaction) (tid : Nat) (t' : Transaction) :
    List Transaction :=
  store.map (fun t => if t.id == tid then t' else t)

/-- Request body of `POST /api/transactions`. -/
structure CreateReq where
  borrower : Option String
  amount : Option Int
  interestRate : Option Int
  startDate : Option Int
  dueDate : Option Int
  description : Option String
deriving DecidableEq, Repr

/-- Request body of `PUT /api/transactions/:id`. -/
structure UpdateReq where
  amount : Option Int
  interestRate : Option Int
  dueDate : Option Int
  startDate : Option Int
  status : Option Status
  description : Option String
  borrower : Option String
deriving DecidableEq, Repr

/-- Request body of `POST /api/transactions/:id/payment`. -/
structure PaymentReq where
  amount : Option Int
  date : Option Int
  notes : Option String
deriving DecidableEq, Repr

/-- `POST /api/transactions`: validate the body, resolve the borrower
username, build the document (defaults: `status = active`, `payments = []`,
`totalPaid = 0`, `remainingAmount = amount`), link `borrowerId` when the
username resolved, and save.  Returns the new store and the saved record. -/
def createRoute (users : List Account) (now : Int) (lenderId : Nat)
    (store : List Transaction) (newId : Nat) (req : CreateReq) :
    Except ApiError (List Transaction × Transaction) :=
  match req.borrower, req.amount, req.interestRate, req.dueDate, req.startDate with
  | some borrower, some amount, some interestRate, some dueDate, some startDate =>
    if borrower == "" then Except.error ApiError.validationFailure
    else
      let borrowerUser := findUserByName users borrower
      let t : Transaction :=
        { id := newId
          lender := lenderId
          borrower := borrower
          borrowerId := borrowerUser.map Account.id
          amount := amount
          interestRate := interestRate
          startDate := startDate
          dueDate := dueDate
          status := Status.active
          description := req.description
          payments := []
          totalPaid := 0
          remainingAmount := amount
          createdAt := now
          updatedAt := now }
      match saveDoc now false t with
      | Except.ok t' => Except.ok (store ++ [t'], t')
      | Except.error e => Except.error e
  | _, _, _, _, _ => Except.error ApiError.validationFailure

/-- `GET /api/transactions/:id`: authorization check, then the record with
its role tag; a caller qualifying as both is reported as `lender`. -/
def getByIdRoute (user : Account) (store : List Transaction) (tid : Nat) :
    Except ApiError (Transaction × Role) :=
  match findById store tid with
  | none => Except.error ApiError.notFound
  | some t =>
    let isLender := t.lender == user.id
    let isBorrower :=
      (match t.borrowerId with
       | some b => b == user.id
       | none => false) || t.borrower == user.username
    if !(isLender || isBorrower) then Except.error ApiError.unauthorized
    else Except.ok (t, if isLender then Role.lender else Role.borrower)

/-- The field-patching block of `PUT /api/transactions/:id`: each truthy
body field overwrites the document field; a changed `borrower` re-runs
username resolution, setting `borrowerId` on a match and clearing it to
`null` otherwise. -/
def applyPatch (users : List Account) (req : UpdateReq) (t0 : Transaction) :
    Transaction :=
  let t1 := match req.amount with
    | some a => if a != 0 then { t0 with amount := a } else t0
    | none => t0
  let t2 := match req.interestRate with
    | some r => if r != 0 then { t1 with interestRate := r } else t1
    | none => t1
  let t3 := match req.dueDate with
    | some d => { t2 with dueDate := d }
    | none => t2
  let t4 := match req.startDate with
    | some d => { t3 with startDate := d }
    | none => t3
  let t5 := match req.status with
    | some s => { t4 with status := s }
    | none => t4
  let t6 := match req.description with
    | some d => if d != "" then { t5 with description := some d } else t5
    | none => t5
  let t7 := match req.borrower with
    | some b =>
      if b != "" then
        let tb := { t6 with borrower := b }
        match findUserByName users b with
        | some u => { tb with borrowerId := some u.id }
        | none => { tb with borrowerId := none }
      else t6
    | none => t6
  t7

/-- `PUT /api/transactions/:id` (continued): find the record, check the
caller is the lender, apply the patch, save (the `payments` path is
untouched), and write back. -/
def updateRoute (users : List Account) (now : Int) (user : Account)
    (store : List Transaction) (tid : Nat) (req : UpdateReq) :
    Except ApiError (List Transaction × Transaction) :=
  match findById store tid with
  | none => Except.error ApiError.notFound
  | some t0 =>
    if t0.lender != user.id then Except.error ApiError.unauthorized
    else
      match saveDoc now false (applyPatch users req t0) with
      | Except.ok t' => Except.ok (updateById store tid t', t')
      | Except.error e => Except.error e

/-- `DELETE /api/transactions/:id`: lender-only removal. -/
def deleteRoute (user : Account) (store : List Transaction) (tid : Nat) :
    Except ApiError (List Transaction) :=
  match findById store tid with
  | none => Except.error ApiError.notFound
  | some t =>
    if t.lender != user.id then Except.error ApiError.unauthorized
    else Except.ok (store.filter (fun x => x.id != tid))

/-- `POST /api/transactions/:id/payment`: body validation, authorization
(lender, or borrower by id or by username), push the payment, save (the
`payments` path is modified, so derivation runs). -/
def addPaymentRoute (now : Int) (user : Account) (store : List Transaction)
    (tid : Nat) (req : PaymentReq) :
    Except ApiError (List Transaction × Transaction) :=
  match req.amount, req.date with
  | some amount, some date =>
    match findById store tid with
    | none => Except.error ApiError.notFound
    | some t =>
      let isLender := t.lender == user.id
      let isBorrower :=
        (match t.borrowerId with
         | some b => b == user.id
         | none => false) || t.borrower == user.username
      if !(isLender || isBorrower) then Except.error ApiError.unauthorized
      else
        let t1 := { t with payments := t.payments ++ [⟨amount, date, req.notes⟩] }
        match saveDoc now true t1 with
        | Except.ok t' => Except.ok (updateById store tid t', t')
        | Except.error e => Except.error e
  | _, _ => Except.error ApiError.validationFailure

/-- The single-record borrower test of the routes, as one predicate. -/
def isBorrowerOf (user : Account) (t : Transaction) : Bool :=
  (t.borrowerId == some user.id) || (t.borrower == user.username)

/-- Comparator of the history sort:
`(a, b) => new Date(b.createdAt) - new Date(a.createdAt)` (descending). -/
def histLE (a b : Transaction × Role) : Bool :=
  decide (b.1.createdAt ≤ a.1.createdAt)

/-- The three role-tagged query results of `GET /api/transactions`,
concatenated in handler order: lender matches, borrower-by-id matches,
borrower-by-username matches filtered by `borrowerId: { $ne: user.id }`. -/
def historyCat (user : Account) (store : List Transaction) :
    List (Transaction × Role) :=
  (store.filter (fun t => t.lender == user.id)).map (fun t => (t, Role.lender)) ++
  (store.filter (fun t => t.borrowerId == some user.id)).map (fun t => (t, Role.borrower)) ++
  (store.filter (fun t => (t.borrower == user.username) &&
      !(t.borrowerId == some user.id))).map (fun t => (t, Role.borrower))

/-- `GET /api/transactions`: the combined role-tagged list, sorted by
`createdAt` descending. -/
def historyFor (user : Account) (store : List Transaction) :
    List (Transaction × Role) :=
  (historyCat user store).mergeSort histLE

/-! Concrete accounts, records, and request bodies used to exercise the
operations at specific inputs. -/

/-- A lender account. -/
def wLender : Account := ⟨1, "lu"⟩

/-- An account that is neither lender nor borrower of `wBase`. -/
def wEve : Account := ⟨9, "eve"⟩

/-- A well-formed creation request for a loan of 100 to "bob". -/
def wCreateReq : CreateReq :=
  { borrower := some "bob", amount := some 100, interestRate := some 5,
    startDate := some 0, dueDate := some 1000, description := none }

/-- The record `createRoute` builds from `wCreateReq` at time 10. -/
def wBase : Transaction :=
  { id := 1, lender := 1, borrower := "bob", borrowerId := none,
    amount := 100, interestRate := 5, startDate := 0, dueDate := 1000,
    status := Status.active, description := none, payments := [],
    totalPaid := 0, remainingAmount := 100, createdAt := 10, updatedAt := 10 }

/-- A payment of 40. -/
def c1PReq : PaymentReq := ⟨some 40, some 15, none⟩

/-- `wBase` after the payment of 40 at time 20. -/
def c1T2 : Transaction :=
  { wBase with
    payments := [⟨40, 15, none⟩], totalPaid := 40,
    remainingAmount := 60, updatedAt := 20 }

/-- A field update that raises the principal to 200. -/
def c1UReq : UpdateReq :=
  { amount := some 200, interestRate := none, dueDate := none,
    startDate := none, status := none, description := none, borrower := none }

/-- `c1T2` after the principal update at time 30: derived fields are stale. -/
def c1T3 : Transaction := { c1T2 with amount := 200, updatedAt := 30 }

/-- A payment of 100 (pays the loan off). -/
def c2PReq : PaymentReq := ⟨some 100, some 15, none⟩

/-- `wBase` after the payment of 100 at time 20: completed. -/
def c2T2 : Transaction :=
  { wBase with
    payments := [⟨100, 15, none⟩], totalPaid := 100,
    remainingAmount := 0, status := Status.completed, updatedAt := 20 }

/-- A field update that explicitly sets the status back to `active`. -/
def c2UReq : UpdateReq :=
  { amount := none, interestRate := none, dueDate := none, startDate := none,
    status := some Status.active, description := none, borrower := none }

/-- `c2T2` after the explicit status patch at time 30. -/
def c2T3 : Transaction := { c2T2 with status := Status.active, updatedAt := 30 }

/-- A payment with a negative amount. -/
def c3PReq : PaymentReq := ⟨some (-50), some 15, none⟩

/-- `wBase` after the negative payment at time 20: the mutation committed. -/
def c3T2 : Transaction :=
  { wBase with
    payments := [⟨-50, 15, none⟩], totalPaid := -50,
    remainingAmount := 150, updatedAt := 20 }

/-- A creation request whose principal is 0. -/
def c3BadReq : CreateReq :=
  { borrower := some "bob", amount := some 0, interestRate := some 5,
    startDate := some 0, dueDate := some 1000, description := none }

/-- A directory with one account, "alice". -/
def c4Users : List Account := [⟨7, "alice"⟩]

/-- A creation request naming "alice" as the borrower. -/
def c4CReq : CreateReq :=
  { borrower := some "alice", amount := some 100, interestRate := some 5,
    startDate := some 0, dueDate := some 1000, description := none }

/-- The record created from `c4CReq`: the borrower resolved to account 7. -/
def c4T1 : Transaction :=
  { wBase with borrower := "alice", borrowerId := some 7 }

/-- A field update renaming the borrower to the unregistered "carol". -/
def c4UReq : UpdateReq :=
  { amount := none, interestRate := none, dueDate := none, startDate := none,
    status := none, description := none, borrower := some "carol" }

/-- `c4T1` after the rename at time 30: the borrower link is cleared. -/
def c4T2 : Transaction :=
  { c4T1 with
    borrower := "carol", borrowerId := none, updatedAt := 30 }

/-- A self-loan of user 1: lender and resolved borrower are both account 1. -/
def c5S1 : Transaction := { wBase with borrower := "lu", borrowerId := some 1 }

/-- A loan from another lender to user 1, unresolved, created later. -/
def c5S2 : Transaction :=
  { wBase with
    id := 2, lender := 2, borrower := "lu",
    createdAt := 20, updatedAt := 20 }

/-- A two-record store. -/
def c5Store : List Transaction := [c5S1, c5S2]

/-- A payment of 30. -/
def c7PReq : PaymentReq := ⟨some 30, some 15, none⟩

/-- `wBase` with a due date already in the past at time 20. -/
def c7Past : Transaction := { wBase with dueDate := 5 }

/-- `c7Past` after the payment of 30 at time 20: overdue. -/
def c7Ta : Transaction :=
  { c7Past with
    payments := [⟨30, 15, none⟩], totalPaid := 30,
    remainingAmount := 70, status := Status.overdue, updatedAt := 20 }

/-- `wBase` after the payment of 30 at time 20: still active. -/
def c7Tb : Transaction :=
  { wBase with
    payments := [⟨30, 15, none⟩], totalPaid := 30,
    remainingAmount := 70, updatedAt := 20 }

/-- `wBase` after an overpayment of 150 at time 20. -/
def c8After : Transaction :=
  { wBase with
    payments := [⟨150, 15, none⟩], totalPaid := 150,
    remainingAmount := -50, status := Status.completed, updatedAt := 20 }

deriving instance DecidableEq for Except

/-! Helper lemmas about the payment route and the derivation step. -/

theorem derivePayments_totalPaid (now : Int) (t : Transaction) :
    (derivePayments now t).totalPaid = paymentsSum t.payments := rfl

theorem derivePayments_remainingAmount (now : Int) (t : Transaction) :
    (derivePayments now t).remainingAmount = t.amount - paymentsSum t.payments := rfl

theorem derivePayments_payments (now : Int) (t : Transaction) :
    (derivePayments now t).payments = t.payments := rfl

theorem derivePayments_amount (now : Int) (t : Transaction) :
    (derivePayments now t).amount = t.amount := rfl

theorem derivePayments_status (now : Int) (t : Transaction) :
    (derivePayments now t).status =
      if t.amount - paymentsSum t.payments ≤ 0 then Status.completed
      else if decide (t.dueDate < now) && !(t.status == Status.completed) then Status.overdue
      else t.status := rfl

/-- Anatomy of a successful `addPaymentRoute` call: the body fields were
present, the record was found, and the output is the found record with the
payment appended and derivation applied, written back to the store. -/
theorem addPaymentRoute_ok_shape (now : Int) (user : Account)
    (store : List Transaction) (tid : Nat) (req : PaymentReq)
    (out : List Transaction × Transaction)
    (h : addPaymentRoute now user store tid req = Except.ok out) :
    ∃ t amount date, req.amount = some amount ∧ req.date = some date ∧
      findById store tid = some t ∧
      out.2 = derivePayments now
        { t with payments := t.payments ++ [⟨amount, date, req.notes⟩], updatedAt := now } ∧
      out.1 = updateById store tid out.2 := by
  cases ha : req.amount with
  | none => rw [addPaymentRoute, ha] at h; exact (Except.noConfusion h)
  | some amount =>
  cases hd : req.date with
  | none => rw [addPaymentRoute, ha, hd] at h; exact (Except.noConfusion h)
  | some date =>
  rw [addPaymentRoute, ha, hd] at h
  cases hf : findById store tid with
  | none => rw [hf] at h; exact (Except.noConfusion h)
  | some t =>
  rw [hf] at h
  refine ⟨t, amount, date, rfl, rfl, rfl, ?_⟩
  dsimp only at h
  split at h
  · exact (Except.noConfusion h)
  · rw [saveDoc] at h
    split at h
    next t' heq =>
      rw [Except.ok.injEq] at h
      subst h
      split at heq
      · rw [Except.ok.injEq] at heq
        subst heq
        exact ⟨rfl, rfl⟩
      · exact (Except.noConfusion heq)
    next e heq => exact (Except.noConfusion h)

/-- C1 counterexample: the claimed invariant fails after an `updateFields`
call that changes the principal without touching payments.  Starting from an
empty store, create a loan of 100, pay 40 (derived fields consistent), then
update the principal to 200: the committed record keeps `totalPaid = 40` and
`remainingAmount = 60`, but `principal − totalPaid = 160`, because the
pre-save derivation only runs when the `payments` path is modified. -/
theorem c1_counterexample :
    createRoute [] 10 1 [] 1 wCreateReq = Except.ok ([wBase], wBase) ∧
    addPaymentRoute 20 wLender [wBase] 1 c1PReq = Except.ok ([c1T2], c1T2) ∧
    updateRoute [] 30 wLender [c1T2] 1 c1UReq = Except.ok ([c1T3], c1T3) ∧
    c1T3.remainingAmount ≠ c1T3.amount - c1T3.totalPaid :=
  ⟨rfl, rfl, rfl, by decide⟩

/-- C1 (amended): after every committed payment-adding mutation,
`totalPaid` equals the sum of all `payments[].amount` and `remainingAmount`
equals `principal − totalPaid`.  An `updateFields` call that changes the
principal (amount) without touching payments does NOT re-derive these
fields, so the invariant can break there (see the counterexample). -/
theorem c1_payment_derivation_invariant (now : Int) (user : Account)
    (store : List Transaction) (tid : Nat) (req : PaymentReq)
    (out : List Transaction × Transaction)
    (h : addPaymentRoute now user store tid req = Except.ok out) :
    out.2.totalPaid = paymentsSum out.2.payments ∧
    out.2.remainingAmount = out.2.amount - out.2.totalPaid := by
  obtain ⟨t, amount, date, -, -, -, h2, -⟩ :=
    addPaymentRoute_ok_shape now user store tid req out h
  rw [h2, derivePayments_totalPaid, derivePayments_payments,
    derivePayments_remainingAmount, derivePayments_amount]
  exact ⟨rfl, rfl⟩

/-- C1 witness: the amended theorem applied to the concrete payment of 40
on the concrete loan of 100. -/
theorem c1_payment_derivation_invariant_witness :
    c1T2.totalPaid = paymentsSum c1T2.payments ∧
    c1T2.remainingAmount = c1T2.amount - c1T2.totalPaid :=
  c1_payment_derivation_invariant 20 wLender [wBase] 1 c1PReq ([c1T2], c1T2) rfl

/-- C2 counterexample: the claimed invariant fails after an `updateFields`
patch that sets `status` explicitly without touching payments.  Create a
loan of 100, pay it off (status becomes `completed`, remaining 0), then
update with `status = active`: the committed record has
`remainingAmount = 0 ≤ 0` but `status = active`, because the explicit patch
is applied verbatim and derivation does not run. -/
theorem c2_counterexample :
    createRoute [] 10 1 [] 1 wCreateReq = Except.ok ([wBase], wBase) ∧
    addPaymentRoute 20 wLender [wBase] 1 c2PReq = Except.ok ([c2T2], c2T2) ∧
    updateRoute [] 30 wLender [c2T2] 1 c2UReq = Except.ok ([c2T3], c2T3) ∧
    c2T3.remainingAmount ≤ 0 ∧ c2T3.status ≠ Status.completed :=
  ⟨rfl, rfl, rfl, by decide, by decide⟩

/-- C2 (amended): after every committed payment-adding mutation, if
`remainingAmount ≤ 0` then `status = completed`.  An `updateFields` patch
that sets `status` explicitly without touching payments is applied verbatim
and can violate the implication until the next payments mutation (see the
counterexample). -/
theorem c2_completed_when_paid_off (now : Int) (user : Account)
    (store : List Transaction) (tid : Nat) (req : PaymentReq)
    (out : List Transaction × Transaction)
    (h : addPaymentRoute now user store tid req = Except.ok out)
    (hr : out.2.remainingAmount ≤ 0) :
    out.2.status = Status.completed := by
  obtain ⟨t, amount, date, -, -, -, h2, -⟩ :=
    addPaymentRoute_ok_shape now user store tid req out h
  rw [h2, derivePayments_remainingAmount] at hr
  rw [h2, derivePayments_status, if_pos hr]

/-- C2 witness: the amended theorem applied to the concrete full payment
of 100 on the concrete loan of 100. -/
theorem c2_completed_when_paid_off_witness :
    c2T2.status = Status.completed :=
  c2_completed_when_paid_off 20 wLender [wBase] 1 c2PReq ([c2T2], c2T2) rfl (by decide)

/-- C3 counterexample: an `addPayment` call with a negative amount is NOT
rejected.  The body check is only `isNumeric()` and the payments subschema
has no minimum, so a payment of −50 on the loan of 100 commits: the stored
record's payments change and `totalPaid` becomes −50. -/
theorem c3_counterexample :
    addPaymentRoute 20 wLender [wBase] 1 c3PReq = Except.ok ([c3T2], c3T2) ∧
    c3T2.payments ≠ wBase.payments ∧ c3T2.totalPaid = -50 :=
  ⟨rfl, by decide, by decide⟩

/-- Anatomy of a successful `createRoute` call: every required body field
was present, validation passed (positive principal, non-negative interest,
non-empty borrower name), and the output is the freshly built record with
the borrower reference resolved by username, appended to the store. -/
theorem createRoute_ok_shape (users : List Account) (now : Int) (lenderId : Nat)
    (store : List Transaction) (newId : Nat) (req : CreateReq)
    (out : List Transaction × Transaction)
    (h : createRoute users now lenderId store newId req = Except.ok out) :
    ∃ b a ir dd sd, req.borrower = some b ∧ req.amount = some a ∧
      req.interestRate = some ir ∧ req.dueDate = some dd ∧
      req.startDate = some sd ∧ b ≠ "" ∧ 1 ≤ a ∧ 0 ≤ ir ∧
      out.2 =
        { id := newId, lender := lenderId, borrower := b,
          borrowerId := (findUserByName users b).map Account.id, amount := a,
          interestRate := ir, startDate := sd, dueDate := dd,
          status := Status.active, description := req.description, payments := [],
          totalPaid := 0, remainingAmount := a, createdAt := now,
          updatedAt := now } ∧
      out.1 = store ++ [out.2] := by
  cases hb : req.borrower with
  | none => rw [createRoute, hb] at h; exact (Except.noConfusion h)
  | some b =>
  cases ha : req.amount with
  | none => rw [createRoute, hb, ha] at h; exact (Except.noConfusion h)
  | some a =>
  cases hi : req.interestRate with
  | none => rw [createRoute, hb, ha, hi] at h; exact (Except.noConfusion h)
  | some ir =>
  cases hd : req.dueDate with
  | none => rw [createRoute, hb, ha, hi, hd] at h; exact (Except.noConfusion h)
  | some dd =>
  cases hs : req.startDate with
  | none => rw [createRoute, hb, ha, hi, hd, hs] at h; exact (Except.noConfusion h)
  | some sd =>
  rw [createRoute, hb, ha, hi, hd, hs] at h
  dsimp only at h
  split at h
  · exact (Except.noConfusion h)
  next hbne =>
    rw [saveDoc] at h
    split at h
    next t' heq =>
      rw [Except.ok.injEq] at h
      subst h
      split at heq
      next hval =>
        rw [Except.ok.injEq] at heq
        subst heq
        simp only [validateDoc, Bool.and_eq_true, decide_eq_true_eq,
          bne_iff_ne, ne_eq] at hval
        exact ⟨b, a, ir, dd, sd, rfl, rfl, rfl, rfl, rfl,
          by simpa using hbne, hval.1.1, hval.1.2, rfl, rfl⟩
      · exact (Except.noConfusion heq)
    next e heq => exact (Except.noConfusion h)

/-- C3 (amended): a create call with `principal ≤ 0` or a missing required
field fails validation before any mutation is applied (the operation
returns an error and no store is produced, all-or-nothing).  However, an
`addPayment` call with a negative payment amount passes validation and IS
applied (see the counterexample). -/
theorem c3_create_validation_all_or_nothing (users : List Account) (now : Int)
    (lenderId : Nat) (store : List Transaction) (newId : Nat) (req : CreateReq)
    (h : (∃ a, req.amount = some a ∧ a ≤ 0) ∨ req.amount = none ∨
      req.borrower = none ∨ req.interestRate = none ∨
      req.dueDate = none ∨ req.startDate = none) :
    ∃ e, createRoute users now lenderId store newId req = Except.error e := by
  cases hc : createRoute users now lenderId store newId req with
  | error e => exact ⟨e, rfl⟩
  | ok out =>
    exfalso
    obtain ⟨b, a, ir, dd, sd, hb, ha, hi, hd, hs, -, hle1, -, -, -⟩ :=
      createRoute_ok_shape users now lenderId store newId req out hc
    rcases h with ⟨a', ha', hle⟩ | h' | h' | h' | h' | h'
    · rw [ha] at ha'
      cases ha'
      omega
    all_goals simp_all

/-- C3 witness: the amended theorem applied to the creation request whose
principal is 0 (rejected before any record is stored). -/
theorem c3_create_validation_all_or_nothing_witness :
    ∃ e, createRoute [] 10 1 [] 1 c3BadReq = Except.error e :=
  c3_create_validation_all_or_nothing [] 10 1 [] 1 c3BadReq
    (Or.inl ⟨0, rfl, by decide⟩)

/-- Anatomy of a successful `updateRoute` call: the record was found, the
caller is its lender, and the output is the patched record (with refreshed
`updatedAt`) written back to the store. -/
theorem updateRoute_ok_shape (users : List Account) (now : Int) (user : Account)
    (store : List Transaction) (tid : Nat) (req : UpdateReq)
    (out : List Transaction × Transaction)
    (h : updateRoute users now user store tid req = Except.ok out) :
    ∃ t0, findById store tid = some t0 ∧ t0.lender = user.id ∧
      out.2 = { applyPatch users req t0 with updatedAt := now } ∧
      out.1 = updateById store tid out.2 := by
  cases hf : findById store tid with
  | none => rw [updateRoute, hf] at h; exact (Except.noConfusion h)
  | some t0 =>
    rw [updateRoute, hf] at h
    dsimp only at h
    split at h
    · exact (Except.noConfusion h)
    next hl =>
      rw [saveDoc] at h
      split at h
      next t' heq =>
        rw [Except.ok.injEq] at h
        subst h
        split at heq
        next hval =>
          rw [Except.ok.injEq] at heq
          subst heq
          exact ⟨t0, rfl, by simpa using hl, rfl, rfl⟩
        · exact (Except.noConfusion heq)
      next e heq => exact (Except.noConfusion h)

/-- When the patch carries a non-empty borrower name, the patched record's
`borrowerId` is exactly the resolution of that name. -/
theorem applyPatch_borrowerId (users : List Account) (req : UpdateReq)
    (t0 : Transaction) (b : String)
    (hb : req.borrower = some b) (hne : b ≠ "") :
    (applyPatch users req t0).borrowerId =
      (findUserByName users b).map Account.id := by
  have hbne : (b != "") = true := bne_iff_ne.mpr hne
  cases hu : findUserByName users b with
  | some u => simp [applyPatch, hb, hbne, hu]
  | none => simp [applyPatch, hb, hbne, hu]

/-- C4: borrower-reference resolution.  At creation, `borrowerId` is set to
the account whose username exactly equals the requested borrower name, and
left absent when none matches.  A later update that changes the borrower
name re-resolves it: `borrowerId` is set when the new name resolves and
cleared to absent when it does not.  Both facts are stated at once through
`Option.map`: the committed record's `borrowerId` always equals the
resolution of the (new) name. -/
theorem c4_borrower_resolution (users : List Account) (nowC nowU : Int)
    (lenderId : Nat) (user : Account) (storeC storeU : List Transaction)
    (newId tid : Nat) (reqC : CreateReq) (reqU : UpdateReq)
    (outC outU : List Transaction × Transaction) (bC bU : String) :
    (createRoute users nowC lenderId storeC newId reqC = Except.ok outC →
      reqC.borrower = some bC →
      outC.2.borrowerId = (findUserByName users bC).map Account.id) ∧
    (updateRoute users nowU user storeU tid reqU = Except.ok outU →
      reqU.borrower = some bU → bU ≠ "" →
      outU.2.borrowerId = (findUserByName users bU).map Account.id) := by
  constructor
  · intro h hbc
    obtain ⟨b, a, ir, dd, sd, hb', -, -, -, -, -, -, -, h2, -⟩ :=
      createRoute_ok_shape users nowC lenderId storeC newId reqC outC h
    rw [hbc, Option.some.injEq] at hb'
    subst hb'
    rw [h2]
  · intro h hbu hne
    obtain ⟨t0, -, -, h2, -⟩ :=
      updateRoute_ok_shape users nowU user storeU tid reqU outU h
    rw [h2]
    exact applyPatch_borrowerId users reqU t0 bU hbu hne

/-- C4 witness: creating against a directory containing "alice" with
borrower name "alice" links account 7; updating the borrower name to the
unregistered "carol" clears the link. -/
theorem c4_borrower_resolution_witness :
    c4T1.borrowerId = (findUserByName c4Users "alice").map Account.id ∧
    c4T2.borrowerId = (findUserByName c4Users "carol").map Account.id := by
  have h := c4_borrower_resolution c4Users 10 30 1 wLender [] [c4T1] 1 1
    c4CReq c4UReq ([c4T1], c4T1) ([c4T2], c4T2) "alice" "carol"
  exact ⟨h.1 rfl rfl, h.2 rfl rfl (by decide)⟩

theorem paymentsSum_append (ps : List Payment) (p : Payment) :
    paymentsSum (ps ++ [p]) = paymentsSum ps + p.amount := by
  simp [paymentsSum, List.foldl_append]

/-- C6: a caller who is neither the record's lender nor its borrower
(neither by reference nor by username) is rejected with `Unauthorized` by
the read, update, delete, and add-payment operations; each rejected
operation produces no new store, so the record is unchanged. -/
theorem c6_unauthorized_rejected (users : List Account) (now : Int)
    (user : Account) (store : List Transaction) (tid : Nat) (t : Transaction)
    (requ : UpdateReq) (reqp : PaymentReq)
    (ht : findById store tid = some t)
    (hl : t.lender ≠ user.id)
    (hb1 : t.borrowerId ≠ some user.id)
    (hb2 : t.borrower ≠ user.username)
    (hpa : reqp.amount.isSome = true) (hpd : reqp.date.isSome = true) :
    getByIdRoute user store tid = Except.error ApiError.unauthorized ∧
    updateRoute users now user store tid requ = Except.error ApiError.unauthorized ∧
    deleteRoute user store tid = Except.error ApiError.unauthorized ∧
    addPaymentRoute now user store tid reqp = Except.error ApiError.unauthorized := by
  have hlb : (t.lender == user.id) = false := by simp [hl]
  have hlne : (t.lender != user.id) = true := by simp [hl]
  have hub : (t.borrower == user.username) = false := by simp [hb2]
  have hbb : (match t.borrowerId with
      | some b => b == user.id
      | none => false) = false := by
    cases hbid : t.borrowerId with
    | none => rfl
    | some b =>
      have hbne : b ≠ user.id := fun e => hb1 (by rw [hbid, e])
      simpa using hbne
  obtain ⟨pa, hpa'⟩ := Option.isSome_iff_exists.mp hpa
  obtain ⟨pd, hpd'⟩ := Option.isSome_iff_exists.mp hpd
  refine ⟨?_, ?_, ?_, ?_⟩
  · rw [getByIdRoute, ht]
    dsimp only
    rw [hlb, hbb, hub]
    rfl
  · rw [updateRoute, ht]
    dsimp only
    rw [hlne]
    rfl
  · rw [deleteRoute, ht]
    dsimp only
    rw [hlne]
    rfl
  · rw [addPaymentRoute, hpa', hpd', ht]
    dsimp only
    rw [hlb, hbb, hub]
    rfl

/-- C6 witness: account 9 ("eve") is neither lender nor borrower of the
stored loan and every operation on it is rejected as unauthorized. -/
theorem c6_unauthorized_rejected_witness :
    getByIdRoute wEve [wBase] 1 = Except.error ApiError.unauthorized ∧
    updateRoute [] 30 wEve [wBase] 1 c1UReq = Except.error ApiError.unauthorized ∧
    deleteRoute wEve [wBase] 1 = Except.error ApiError.unauthorized ∧
    addPaymentRoute 20 wEve [wBase] 1 c1PReq = Except.error ApiError.unauthorized :=
  c6_unauthorized_rejected [] 30 wEve [wBase] 1 wBase c1UReq c1PReq rfl
    (by decide) (by decide) (by decide) rfl rfl

/-- C7: after a committed payment that leaves `remainingAmount > 0`, if the
due date is strictly before the current time and the record's status going
into the save was not `completed`, the status becomes `overdue`; if the due
date is not past, the status is left unchanged (no automatic reversion to
`active`); and a payment never moves a record into `defaulted`. -/
theorem c7_overdue_transition (now : Int) (user : Account)
    (store : List Transaction) (tid : Nat) (req : PaymentReq)
    (out : List Transaction × Transaction) (t0 : Transaction)
    (h : addPaymentRoute now user store tid req = Except.ok out)
    (ht : findById store tid = some t0) :
    (0 < out.2.remainingAmount → t0.dueDate < now →
      t0.status ≠ Status.completed → out.2.status = Status.overdue) ∧
    (0 < out.2.remainingAmount → ¬ t0.dueDate < now →
      out.2.status = t0.status) ∧
    (t0.status ≠ Status.defaulted → out.2.status ≠ Status.defaulted) := by
  obtain ⟨t, amount, date, -, -, hf, h2, -⟩ :=
    addPaymentRoute_ok_shape now user store tid req out h
  rw [ht, Option.some.injEq] at hf
  subst hf
  refine ⟨?_, ?_, ?_⟩
  · intro hr hd hs
    rw [h2, derivePayments_remainingAmount] at hr
    rw [h2, derivePayments_status]
    dsimp only at hr ⊢
    rw [if_neg (by omega)]
    rw [if_pos (by simp [hd, hs])]
  · intro hr hnd
    rw [h2, derivePayments_remainingAmount] at hr
    rw [h2, derivePayments_status]
    dsimp only at hr ⊢
    rw [if_neg (by omega)]
    rw [if_neg (by simp [hnd])]
  · intro hds
    rw [h2, derivePayments_status]
    dsimp only
    split
    · decide
    · split
      · decide
      · exact hds

/-- C7 witness: the theorem applied twice.  A payment of 30 on the loan
whose due date (5) is already past at time 20 flips the status to
`overdue`; the same payment on the loan due at 1000 leaves the status
unchanged (`active`); neither result is `defaulted`. -/
theorem c7_overdue_transition_witness :
    c7Ta.status = Status.overdue ∧ c7Tb.status = wBase.status ∧
    c7Ta.status ≠ Status.defaulted := by
  have ha := c7_overdue_transition 20 wLender [c7Past] 1 c7PReq
    ([c7Ta], c7Ta) c7Past rfl rfl
  have hb := c7_overdue_transition 20 wLender [wBase] 1 c7PReq
    ([c7Tb], c7Tb) wBase rfl rfl
  exact ⟨ha.1 (by decide) (by decide) (by decide),
    hb.2.1 (by decide) (by decide), ha.2.2 (by decide)⟩

/-- C8: derivation never fails.  Any authorized payment on a stored valid
record whose amount pushes the payment total strictly beyond the principal
still commits normally; the committed record has a negative
`remainingAmount` and status `completed`. -/
theorem c8_overpayment_completes (now : Int) (user : Account)
    (store : List Transaction) (tid : Nat) (t : Transaction)
    (amount date : Int) (notes : Option String)
    (ht : findById store tid = some t)
    (hauth : t.lender = user.id ∨ t.borrowerId = some user.id ∨
      t.borrower = user.username)
    (hvalid : validateDoc t = true)
    (hover : t.amount < paymentsSum t.payments + amount) :
    ∃ out, addPaymentRoute now user store tid ⟨some amount, some date, notes⟩ =
        Except.ok out ∧
      out.2.remainingAmount < 0 ∧ out.2.status = Status.completed := by
  have hsum : paymentsSum (t.payments ++ [⟨amount, date, notes⟩]) =
      paymentsSum t.payments + amount :=
    paymentsSum_append t.payments ⟨amount, date, notes⟩
  have hbool : (!(t.lender == user.id || ((match t.borrowerId with
      | some b => b == user.id
      | none => false) || t.borrower == user.username))) = false := by
    rcases hauth with h1 | h1 | h1 <;> simp [h1]
  have hval1 : validateDoc
      { t with payments := t.payments ++ [⟨amount, date, notes⟩] } = true := by
    simpa [validateDoc] using hvalid
  have hroute : addPaymentRoute now user store tid ⟨some amount, some date, notes⟩ =
      Except.ok (updateById store tid (derivePayments now { t with payments := t.payments ++ [⟨amount, date, notes⟩], updatedAt := now }), derivePayments now { t with payments := t.payments ++ [⟨amount, date, notes⟩], updatedAt := now }) := by
    simp only [addPaymentRoute]
    rw [ht]
    dsimp only
    rw [hbool]
    rw [saveDoc]
    rw [if_pos hval1]
    rfl
  refine ⟨_, hroute, ?_, ?_⟩
  · rw [derivePayments_remainingAmount]
    dsimp only
    rw [hsum]
    omega
  · rw [derivePayments_status]
    dsimp only
    rw [hsum]
    rw [if_pos (by omega)]

/-- C8 witness: a payment of 150 on the loan of 100 commits, leaving
`remainingAmount = −50` and status `completed`. -/
theorem c8_overpayment_completes_witness :
    ∃ out, addPaymentRoute 20 wLender [wBase] 1 ⟨some 150, some 15, none⟩ =
        Except.ok out ∧
      out.2.remainingAmount < 0 ∧ out.2.status = Status.completed :=
  c8_overpayment_completes 20 wLender [wBase] 1 wBase 150 15 none rfl
    (Or.inl rfl) (by decide) (by decide)

/-- C9 (frame effect): a committed payment changes only the `payments`
sequence (one appended entry) and the derived fields `totalPaid`,
`remainingAmount`, `status` (plus `updatedAt`); the identity, parties,
principal, interest rate, dates, and description are unchanged, and every
other stored record is written back untouched. -/
theorem c9_payment_frame (now : Int) (user : Account) (store : List Transaction)
    (tid : Nat) (req : PaymentReq) (out : List Transaction × Transaction)
    (t0 : Transaction)
    (h : addPaymentRoute now user store tid req = Except.ok out)
    (ht : findById store tid = some t0) :
    out.2.id = t0.id ∧ out.2.lender = t0.lender ∧ out.2.borrower = t0.borrower ∧
    out.2.borrowerId = t0.borrowerId ∧ out.2.amount = t0.amount ∧
    out.2.interestRate = t0.interestRate ∧ out.2.startDate = t0.startDate ∧
    out.2.dueDate = t0.dueDate ∧ out.2.description = t0.description ∧
    out.2.createdAt = t0.createdAt ∧
    (∃ p, out.2.payments = t0.payments ++ [p]) ∧
    out.1 = store.map (fun u => if u.id == tid then out.2 else u) := by
  obtain ⟨o1, o2⟩ := out
  obtain ⟨t, amount, date, -, -, hf, h2, h1⟩ :=
    addPaymentRoute_ok_shape now user store tid req (o1, o2) h
  dsimp only at h2 h1 ⊢
  rw [ht, Option.some.injEq] at hf
  subst hf
  subst h2
  subst h1
  exact ⟨rfl, rfl, rfl, rfl, rfl, rfl, rfl, rfl, rfl, rfl,
    ⟨⟨amount, date, req.notes⟩, rfl⟩, rfl⟩

/-- C9 witness: the theorem applied to the concrete payment of 30 on the
loan of 100 in a one-record store. -/
theorem c9_payment_frame_witness :
    c7Tb.id = wBase.id ∧ c7Tb.lender = wBase.lender ∧
    c7Tb.borrower = wBase.borrower ∧ c7Tb.borrowerId = wBase.borrowerId ∧
    c7Tb.amount = wBase.amount ∧ c7Tb.interestRate = wBase.interestRate ∧
    c7Tb.startDate = wBase.startDate ∧ c7Tb.dueDate = wBase.dueDate ∧
    c7Tb.description = wBase.description ∧ c7Tb.createdAt = wBase.createdAt ∧
    (∃ p, c7Tb.payments = wBase.payments ++ [p]) ∧
    [c7Tb] = [wBase].map (fun u => if u.id == 1 then c7Tb else u) :=
  c9_payment_frame 20 wLender [wBase] 1 c7PReq ([c7Tb], c7Tb) wBase rfl rfl

/-- C10: in the single-record read, a caller who qualifies as both lender
and borrower of the record (self-loan) is reported with role `lender`:
the lender role takes precedence and only one role is returned. -/
theorem c10_self_loan_reads_as_lender (user : Account)
    (store : List Transaction) (tid : Nat) (t : Transaction)
    (out : Transaction × Role)
    (ht : findById store tid = some t)
    (hl : t.lender = user.id)
    (hb : isBorrowerOf user t = true)
    (h : getByIdRoute user store tid = Except.ok out) :
    out.2 = Role.lender := by
  rw [getByIdRoute, ht] at h
  have hlb : (t.lender == user.id) = true := by simp [hl]
  dsimp only at h
  rw [hlb] at h
  have h' : (Except.ok (t, Role.lender) : Except ApiError (Transaction × Role)) =
      Except.ok out := h
  rw [Except.ok.injEq] at h'
  rw [← h']

/-- C10 witness: reading the stored self-loan of account 1 as account 1
returns role `lender`. -/
theorem c10_self_loan_reads_as_lender_witness :
    ((c5S1, Role.lender) : Transaction × Role).2 = Role.lender :=
  c10_self_loan_reads_as_lender wLender [c5S1] 1 c5S1 (c5S1, Role.lender)
    rfl rfl (by decide) rfl

/-- With pairwise-distinct record ids, a stored record occurs in the store
exactly once. -/
theorem count_eq_one_of_pairwise_ids {store : List Transaction} {t : Transaction}
    (hids : store.Pairwise (fun a b => a.id ≠ b.id)) (ht : t ∈ store) :
    store.count t = 1 := by
  induction store with
  | nil => cases ht
  | cons a l ih =>
    rw [List.pairwise_cons] at hids
    rcases List.mem_cons.mp ht with rfl | hmem
    · rw [List.count_cons_self]
      have hnot : t ∉ l := fun hm => hids.1 t hm rfl
      rw [List.count_eq_zero.mpr hnot]
    · have hne : t ≠ a := fun e => hids.1 t hmem (congrArg Transaction.id e.symm)
      rw [List.count_cons_of_ne hne, ih hids.2 hmem]

/-- Sorting does not change multiplicities in the listing. -/
theorem historyFor_count (user : Account) (store : List Transaction)
    (x : Transaction × Role) :
    (historyFor user store).count x = (historyCat user store).count x := by
  have h := (List.mergeSort_perm (historyCat user store) histLE).countP_eq
    (fun y => y == x)
  simpa [List.count] using h

/-- Sorting does not change membership in the listing. -/
theorem historyFor_mem (user : Account) (store : List Transaction)
    (x : Transaction × Role) :
    x ∈ historyFor user store ↔ x ∈ historyCat user store :=
  (List.mergeSort_perm (historyCat user store) histLE).mem_iff

/-- Tagging a list of records with one role preserves multiplicities. -/
theorem count_tag_map (l : List Transaction) (t : Transaction) (r : Role) :
    (l.map (fun x => (x, r))).count (t, r) = l.count t := by
  simp only [List.count, List.countP_map]
  apply List.countP_congr
  intro a _
  by_cases hat : a = t <;> simp [hat, Function.comp]

/-- A pair carrying a different role never occurs in a tagged list. -/
theorem count_tag_map_ne (l : List Transaction) (t : Transaction) (r r' : Role)
    (h : r' ≠ r) :
    (l.map (fun x => (x, r'))).count (t, r) = 0 := by
  rw [List.count_eq_zero]
  intro hm
  rcases List.mem_map.mp hm with ⟨x, -, he⟩
  exact h ((Prod.mk.injEq x r' t r).mp he).2

/-- C5: for every user and store (with distinct record ids), the history
listing contains a lender-tagged entry for a record exactly when the user
is its lender and a borrower-tagged entry exactly when the user is its
borrower (by reference, or by username when the reference points
elsewhere); each such entry occurs exactly once, so a self-loan yields two
entries, one per role; and the whole output is sorted by `createdAt`
descending. -/
theorem c5_history_listing (user : Account) (store : List Transaction)
    (t : Transaction)
    (hids : store.Pairwise (fun a b => a.id ≠ b.id)) :
    ((t, Role.lender) ∈ historyFor user store ↔
      t ∈ store ∧ t.lender = user.id) ∧
    ((t, Role.borrower) ∈ historyFor user store ↔
      t ∈ store ∧ isBorrowerOf user t = true) ∧
    (t ∈ store → t.lender = user.id →
      (historyFor user store).count (t, Role.lender) = 1) ∧
    (t ∈ store → isBorrowerOf user t = true →
      (historyFor user store).count (t, Role.borrower) = 1) ∧
    List.Sorted (fun a b : Transaction × Role => b.1.createdAt ≤ a.1.createdAt)
      (historyFor user store) := by
  refine ⟨?_, ?_, ?_, ?_, ?_⟩
  · rw [historyFor_mem]
    simp [historyCat, List.mem_filter, beq_iff_eq]
  · rw [historyFor_mem]
    simp [historyCat, List.mem_filter, beq_iff_eq, isBorrowerOf]
    tauto
  · intro hmem hl
    rw [historyFor_count, historyCat, List.count_append, List.count_append]
    rw [count_tag_map, count_tag_map_ne _ _ _ _ (by decide),
      count_tag_map_ne _ _ _ _ (by decide)]
    rw [List.count_filter (by simp [hl])]
    rw [count_eq_one_of_pairwise_ids hids hmem]
  · intro hmem hb
    rw [historyFor_count, historyCat, List.count_append, List.count_append]
    rw [count_tag_map_ne _ _ _ _ (by decide), count_tag_map, count_tag_map]
    by_cases hid : t.borrowerId = some user.id
    · rw [List.count_filter (by simp [hid])]
      rw [count_eq_one_of_pairwise_ids hids hmem]
      have hno : t ∉ store.filter (fun x =>
          (x.borrower == user.username) && !(x.borrowerId == some user.id)) := by
        intro hm
        rw [List.mem_filter] at hm
        simp [hid] at hm
      rw [List.count_eq_zero.mpr hno]
    · have h1 : t ∉ store.filter (fun x => x.borrowerId == some user.id) := by
        intro hm
        rw [List.mem_filter] at hm
        simp [hid] at hm
      rw [List.count_eq_zero.mpr h1]
      have hbn : (t.borrower == user.username) = true := by
        simp only [isBorrowerOf, Bool.or_eq_true, beq_iff_eq] at hb
        rcases hb with hb | hb
        · exact absurd hb hid
        · simp [hb]
      rw [List.count_filter (by simp [hbn, hid])]
      rw [count_eq_one_of_pairwise_ids hids hmem]
  · have htrans : ∀ a b c : Transaction × Role, histLE a b = true →
        histLE b c = true → histLE a c = true := by
      intro a b c hab hbc
      simp only [histLE, decide_eq_true_eq] at hab hbc ⊢
      omega
    have htotal : ∀ a b : Transaction × Role,
        (histLE a b || histLE b a) = true := by
      intro a b
      simp only [histLE, Bool.or_eq_true, decide_eq_true_eq]
      omega
    have hs := List.sorted_mergeSort htrans htotal (historyCat user store)
    unfold historyFor
    exact hs.imp (fun hab => by simpa [histLE] using hab)


/-- C5 witness: user 1's history over the two-record store contains the
self-loan once under each role, and each listed fact is decidable at the
concrete store. -/
theorem c5_history_listing_witness :
    ((c5S1, Role.lender) ∈ historyFor wLender c5Store ↔
      c5S1 ∈ c5Store ∧ c5S1.lender = wLender.id) ∧
    (historyFor wLender c5Store).count (c5S1, Role.lender) = 1 ∧
    (historyFor wLender c5Store).count (c5S1, Role.borrower) = 1 ∧
    (historyFor wLender c5Store).count (c5S2, Role.borrower) = 1 := by
  have h1 := c5_history_listing wLender c5Store c5S1 (by decide)
  have h2 := c5_history_listing wLender c5Store c5S2 (by decide)
  exact ⟨h1.1, h1.2.2.1 (by decide) (by decide),
    h1.2.2.2.1 (by decide) (by decide), h2.2.2.2.1 (by decide) (by decide)⟩
